import Mathlib

/-!
Verification of the HighFinesse wavemeter driver (highfinesse/driver.py and
highfinesse/aqctl_highfinesse.py) against its specification.

Python floating-point values are embedded as rationals (ℚ); all the numeric
literals involved (25.0, 1013.25, 123.456789e12, 1e12) are exactly
representable, and the claims under study concern control flow and exact
constants rather than rounding.

The vendor library (windll.wlmData) is external: it is embedded as a record of
the call results the driver consumes.  The module highfinesse/wlm_constants.py
is part of the repository but is not present under src/; the sentinel
constants it provides are modelled from the spec (see WlmConstants).
-/

namespace HF

/-- Embedding of a Python float as an exact rational. -/
abbrev PyFloat := ℚ

/-- State of a Python exception object as seen by a catcher: the args tuple
stored on the object at construction, from which str(e) is derived. -/
structure PyExcState where
  args : List String
deriving DecidableEq, Repr

/-- Embedding of constructing WLMException(value) (driver.py lines 30 to 34).
Although the overridden __init__ does not call Exception.__init__, CPython
stores the positional arguments on the object in BaseException.__new__ before
__init__ runs, so the constructed object carries args = (value,); the
__init__ body then formats a log string from the value and logs it.  The
first component is the state of the exception object; the second is the
string sent to the logger. -/
def wlmExceptionInit (value : String) : PyExcState × String :=
  ({ args := [value] }, "WLMException: " ++ value)

/-- Python str(e) for an exception object: empty for no args, the single arg
for one arg, a tuple rendering otherwise. -/
def pyExcStr (e : PyExcState) : String :=
  match e.args with
  | [] => ""
  | [a] => a
  | as => "(" ++ String.intercalate ", " as ++ ")"

/-- A value v passed at construction of an exception is retrievable by a
catcher exactly when it occurs among the args carried by the object. -/
def retrievable (e : PyExcState) (v : String) : Prop :=
  v ∈ e.args

/-- Embedding of the IntEnum WLMMeasurementStatus (driver.py lines 23 to 27). -/
inductive WLMMeasurementStatus
  | OKAY
  | UNDER_EXPOSED
  | OVER_EXPOSED
  | ERROR
deriving DecidableEq, Repr

/-- Numeric value of each WLMMeasurementStatus member. -/
def WLMMeasurementStatus.value : WLMMeasurementStatus → Nat
  | .OKAY => 0
  | .UNDER_EXPOSED => 1
  | .OVER_EXPOSED => 2
  | .ERROR => 3

/-- Modelled from the spec: the module highfinesse/wlm_constants.py is not
under src/.  The spec describes ErrBigSignal and ErrLowSignal only as the
distinct over-signal and under-signal sentinel error codes, non-positive
values returned in place of a real measurement ("any other non-positive value
yields ERROR").  The two sentinels are therefore carried as parameters. -/
structure WlmConstants where
  ErrBigSignal : PyFloat
  ErrLowSignal : PyFloat
deriving DecidableEq, Repr

/-- Outcome of one raw call into the vendor library function GetFrequencyNum:
it returns a double, or the call raises a WLMException, or it raises an
exception of any other type (identified here by a payload string). -/
inductive RawFreqRead
  | value (v : PyFloat)
  | raiseWLM (e : PyExcState)
  | raiseOther (e : String)
deriving DecidableEq, Repr

/-- The vendor library handle, as the results of the calls the driver makes.
GetWLMVersion is indexed by the version-kind argument 0..3; InstantiateCheck
is the truthiness of Instantiate(cInstCheckForWLM, 0, 0, 0); ControlCodes is
the decoded flag list control_wlm_to_str(res) of the ControlWLMEx result. -/
structure WLMLib where
  GetWLMVersion : Int → Int
  GetTemperature : PyFloat
  GetPressure : PyFloat
  GetFrequencyNum : Int → RawFreqRead
  InstantiateCheck : Bool
  ControlCodes : List String

/-- Mutable attributes of a HighFinesse driver object.  The simulation field
holds the truthiness of the value passed to the simulation parameter
(driver.py line 42 stores the value, and every use is a truthiness test).
In simulation mode construction returns before lines 52 to 55 run, so the
identity attributes are never assigned there; only non-simulation states are
inspected below, where the defaults match the line 52 to 55 assignments. -/
structure DriverState where
  simulation : Bool
  wlm_model : Int := -1
  wlm_hw_rev : Int := -1
  wlm_fw_rev : Int := -1
  wlm_fw_build : Int := -1
  num_ccds : Option Int := none
deriving DecidableEq, Repr

/-- Result of running a driver operation: a returned value, a raised
WLMException, a re-raised asyncio.CancelledError, or a propagated exception
of some other type. -/
inductive PyOutcome (α : Type)
  | ret (a : α)
  | raiseWLM (e : PyExcState)
  | raiseCancelled
  | raiseOther (e : String)
deriving DecidableEq, Repr

/-- Whether an outcome is a raised WLMException. -/
def PyOutcome.isRaiseWLM {α : Type} : PyOutcome α → Bool
  | .raiseWLM _ => true
  | _ => false

/-- Whether an outcome is a normal return. -/
def PyOutcome.isRet {α : Type} : PyOutcome α → Bool
  | .ret _ => true
  | _ => false

/-- Embedding of the body of HighFinesse.id (driver.py lines 96 to 116) as it
runs when the coroutine is awaited.  Returns the object state after the call
together with the outcome; note that on the unrecognised-model raise the four
version attributes have already been reassigned. -/
def idStep (s : DriverState) (lib : WLMLib) : DriverState × PyOutcome String :=
  if s.simulation then
    (s, .ret "WLM simulator")
  else
    let s := { s with
      wlm_model := lib.GetWLMVersion 0,
      wlm_hw_rev := lib.GetWLMVersion 1,
      wlm_fw_rev := lib.GetWLMVersion 2,
      wlm_fw_build := lib.GetWLMVersion 3 }
    if s.wlm_model < 5 ∨ s.wlm_model > 10 then
      (s, .raiseWLM (wlmExceptionInit
        ("Unrecognised WLM model: " ++ toString s.wlm_model)).1)
    else
      let s := { s with num_ccds := some (if s.wlm_model ≥ 7 then 2 else 1) }
      (s, .ret ("WLM " ++ toString s.wlm_model ++ " rev " ++
        toString s.wlm_hw_rev ++ ", firmware " ++ toString s.wlm_fw_rev ++
        "." ++ toString s.wlm_fw_build))

/-- Embedding of HighFinesse.__init__ (driver.py lines 41 to 87) with the
truthiness of the simulation argument and the loaded library (none when
windll.wlmData cannot be loaded).  Line 87 calls self.id() without awaiting
it: since id is declared async, the call only creates a coroutine object that
is discarded, so the body of id does not execute during construction and no
identity read or model check happens here. -/
def highFinesseInit (simulation : Bool) (lib : Option WLMLib) :
    PyOutcome DriverState :=
  if simulation then
    .ret { simulation := true }
  else
    match lib with
    | none => .raiseWLM (wlmExceptionInit
        "Failed to load WLM DLL (is HighFinesse software installed?)").1
    | some lib =>
      if lib.InstantiateCheck then
        .ret { simulation := false }
      else if "flServerStarted" ∈ lib.ControlCodes then
        .ret { simulation := false }
      else
        .raiseWLM (wlmExceptionInit
          "Error starting WLM server application").1

/-- Outcome of the awaited call to self.get_status() inside ping: in the
current source get_status is a pass-body hook that returns None, but ping
branches on the three possible behaviours of the call. -/
inductive StatusCheck
  | ok
  | raisesCancelled
  | raisesOther (e : String)
deriving DecidableEq, Repr

/-- Embedding of HighFinesse.ping (driver.py lines 123 to 135).  In the
non-simulation path, a CancelledError from the status check is re-raised, and
any other exception reaches the handler at line 131 which raises
WLMException with value ping failed; the return False on line 133 is
unreachable dead code after that raise. -/
def ping (s : DriverState) (check : StatusCheck) : PyOutcome Bool :=
  if s.simulation then
    .ret true
  else
    match check with
    | .ok => .ret true
    | .raisesCancelled => .raiseCancelled
    | .raisesOther _ => .raiseWLM (wlmExceptionInit "ping failed").1

/-- Embedding of HighFinesse.get_temperature (driver.py lines 137 to 146). -/
def get_temperature (s : DriverState) (lib : WLMLib) : PyOutcome PyFloat :=
  if s.simulation then
    .ret 25.0
  else
    let temp := lib.GetTemperature
    if temp < 0 then
      .raiseWLM (wlmExceptionInit
        ("Error reading WLM temperature: " ++ toString temp)).1
    else
      .ret temp

/-- Embedding of HighFinesse.get_pressure (driver.py lines 148 to 160). -/
def get_pressure (s : DriverState) (lib : WLMLib) : PyOutcome PyFloat :=
  if s.simulation then
    .ret 1013.25
  else
    let pressure := lib.GetPressure
    if pressure < 0 then
      .raiseWLM (wlmExceptionInit
        ("Error reading WLM pressure: " ++ toString pressure)).1
    else
      .ret pressure

/-- Embedding of HighFinesse.get_frequency (driver.py lines 162 to 192).  The
first component is the outcome (status value, frequency in Hz); the second
records the channel arguments passed to lib.GetFrequencyNum, so that the
absence of channel validation is visible in the theorems. -/
def get_frequency (wlm : WlmConstants) (s : DriverState) (lib : WLMLib)
    (ch : Int) : PyOutcome (Nat × PyFloat) × List Int :=
  if s.simulation then
    (.ret (WLMMeasurementStatus.OKAY.value, 123.456789e12), [])
  else
    match lib.GetFrequencyNum ch with
    | .raiseWLM _ => (.ret (WLMMeasurementStatus.ERROR.value, 0), [ch])
    | .raiseOther e => (.raiseOther e, [ch])
    | .value freq =>
      if freq > 0 then
        (.ret (WLMMeasurementStatus.OKAY.value, freq * 1e12), [ch])
      else if freq = wlm.ErrBigSignal then
        (.ret (WLMMeasurementStatus.OVER_EXPOSED.value, 0), [ch])
      else if freq = wlm.ErrLowSignal then
        (.ret (WLMMeasurementStatus.UNDER_EXPOSED.value, 0), [ch])
      else
        (.ret (WLMMeasurementStatus.ERROR.value, 0), [ch])

/-- Python truthiness of an optional-string value, as used by the driver on
the value main passes for the simulation parameter. -/
inductive PyOptStr
  | none
  | str (s : String)
deriving DecidableEq, Repr

/-- Truthiness of a Python value that is None or a string. -/
def PyOptStr.truthy : PyOptStr → Bool
  | .none => false
  | .str s => s ≠ ""

/-- Embedding of the device-selection check in main (aqctl_highfinesse.py
lines 40 to 43): true when the process prints the usage message and exits
with status 1. -/
def mainDeviceCheckExits (simulation : Bool) (device : PyOptStr) : Bool :=
  !simulation && decide (device = PyOptStr.none)

/-- Embedding of the argument main passes to the HighFinesse constructor as
its first positional parameter, which is simulation (aqctl_highfinesse.py
line 45): args.device if not args.simulation else None. -/
def mainSimArg (simulation : Bool) (device : PyOptStr) : PyOptStr :=
  if ¬ simulation then device else PyOptStr.none

/-! Concrete fixtures used by witnesses and counterexamples. -/

/-- A concrete library handle reporting the given model and fixed raw
readings; hardware revision 3, firmware revision 1 build 451. -/
def testLib (model : Int) (freq : RawFreqRead) (temp pres : PyFloat) :
    WLMLib :=
  { GetWLMVersion := fun i =>
      if i = 0 then model else if i = 1 then 3 else if i = 2 then 1 else 451,
    GetTemperature := temp,
    GetPressure := pres,
    GetFrequencyNum := fun _ => freq,
    InstantiateCheck := true,
    ControlCodes := [] }

/-- Driver state of an adapter constructed in simulation mode. -/
def simState : DriverState := { simulation := true }

/-- Driver state of an adapter constructed in non-simulation mode, identity
fields at their line 52 to 55 values. -/
def nonSimState : DriverState := { simulation := false }

/-- A concrete instantiation of the spec-modelled sentinels: two distinct
non-positive codes, used to evaluate witnesses. -/
def wlmTest : WlmConstants := { ErrBigSignal := -4, ErrLowSignal := -3 }

/-- Library reporting model 6 with healthy readings. -/
def lib6 : WLMLib := testLib 6 (RawFreqRead.value 2) 20 1000

/-- Library whose scalar reads return negative error sentinels. -/
def libNeg : WLMLib := testLib 6 (RawFreqRead.value (-13)) (-5) (-7)

/-- Library reporting the unsupported model 11. -/
def lib11 : WLMLib := testLib 11 (RawFreqRead.value 2) 20 1000

/-- Library whose raw frequency read raises a non-WLMException error. -/
def libOther : WLMLib :=
  testLib 6 (RawFreqRead.raiseOther "ctypes ArgumentError") 20 1000

/-! Claims. -/

/-- C1: in non-simulation mode, for every enumerated outcome of the raw
per-channel frequency read, get_frequency returns a (status, value) pair and
does not raise: a raised library exception yields (ERROR, 0); a raw result
greater than 0 yields (OKAY, raw times 1e12) exactly; a result equal to the
ErrBigSignal sentinel yields (OVER_EXPOSED, 0); one equal to the ErrLowSignal
sentinel yields (UNDER_EXPOSED, 0); and any other value yields (ERROR, 0),
the cases taken in the order written. -/
theorem C1_get_frequency_decode (wlm : WlmConstants) (s : DriverState)
    (lib : WLMLib) (ch : Int) (hs : s.simulation = false) :
    (∀ e, lib.GetFrequencyNum ch = RawFreqRead.raiseWLM e →
      (get_frequency wlm s lib ch).1 =
        PyOutcome.ret (WLMMeasurementStatus.ERROR.value, 0)) ∧
    (∀ v, lib.GetFrequencyNum ch = RawFreqRead.value v →
      (v > 0 → (get_frequency wlm s lib ch).1 =
        PyOutcome.ret (WLMMeasurementStatus.OKAY.value, v * 1e12)) ∧
      (¬ v > 0 → v = wlm.ErrBigSignal → (get_frequency wlm s lib ch).1 =
        PyOutcome.ret (WLMMeasurementStatus.OVER_EXPOSED.value, 0)) ∧
      (¬ v > 0 → v ≠ wlm.ErrBigSignal → v = wlm.ErrLowSignal →
        (get_frequency wlm s lib ch).1 =
          PyOutcome.ret (WLMMeasurementStatus.UNDER_EXPOSED.value, 0)) ∧
      (¬ v > 0 → v ≠ wlm.ErrBigSignal → v ≠ wlm.ErrLowSignal →
        (get_frequency wlm s lib ch).1 =
          PyOutcome.ret (WLMMeasurementStatus.ERROR.value, 0))) := by
  constructor
  · intro e he
    simp [get_frequency, hs, he, WLMMeasurementStatus.value]
  · intro v hv
    refine ⟨fun h1 => ?_, fun h1 h2 => ?_, fun h1 h2 h3 => ?_,
      fun h1 h2 h3 => ?_⟩
    · simp [get_frequency, hs, hv, h1, WLMMeasurementStatus.value]
    · subst h2
      simp [get_frequency, hs, hv, h1, WLMMeasurementStatus.value]
    · subst h3
      simp [get_frequency, hs, hv, h1, h2, WLMMeasurementStatus.value]
    · simp [get_frequency, hs, hv, h1, h2, h3, WLMMeasurementStatus.value]

/-- Witness for C1 at a concrete input: raw read of 2 THz on channel 1. -/
theorem C1_get_frequency_decode_witness :
    (get_frequency wlmTest nonSimState lib6 1).1 =
      PyOutcome.ret (WLMMeasurementStatus.OKAY.value, 2 * 1e12) :=
  ((C1_get_frequency_decode wlmTest nonSimState lib6 1 rfl).2 2 rfl).1
    (by decide)

/-- C2: evaluation of ping at the failing input.  When the status check
raises a non-cancellation exception, ping raises WLMException (driver.py line
132) instead of returning False; the return False on line 133 is dead code
after the raise. -/
theorem C2_ping_failure_raises :
    ping nonSimState (StatusCheck.raisesOther "RuntimeError") =
      PyOutcome.raiseWLM { args := ["ping failed"] } ∧
    ping nonSimState (StatusCheck.raisesOther "RuntimeError") ≠
      PyOutcome.ret false := by
  decide

/-- C5: in non-simulation mode get_temperature and get_pressure raise
WLMException exactly when the raw library reading is negative, and return the
raw reading unchanged when it is non-negative. -/
theorem C5_scalar_read_errors (s : DriverState) (lib : WLMLib)
    (hs : s.simulation = false) :
    (lib.GetTemperature < 0 →
      (get_temperature s lib).isRaiseWLM = true) ∧
    (0 ≤ lib.GetTemperature →
      get_temperature s lib = PyOutcome.ret lib.GetTemperature) ∧
    (lib.GetPressure < 0 →
      (get_pressure s lib).isRaiseWLM = true) ∧
    (0 ≤ lib.GetPressure →
      get_pressure s lib = PyOutcome.ret lib.GetPressure) := by
  refine ⟨fun h => ?_, fun h => ?_, fun h => ?_, fun h => ?_⟩
  · simp [get_temperature, hs, h, PyOutcome.isRaiseWLM]
  · simp [get_temperature, hs, not_lt.mpr h]
  · simp [get_pressure, hs, h, PyOutcome.isRaiseWLM]
  · simp [get_pressure, hs, not_lt.mpr h]

/-- Witness for C5: a healthy temperature passes through, a negative pressure
raises. -/
theorem C5_scalar_read_errors_witness :
    get_temperature nonSimState lib6 = PyOutcome.ret lib6.GetTemperature ∧
    (get_pressure nonSimState libNeg).isRaiseWLM = true :=
  ⟨(C5_scalar_read_errors nonSimState lib6 rfl).2.1 (by decide),
   (C5_scalar_read_errors nonSimState libNeg rfl).2.2.1 (by decide)⟩

/-- C6: for a simulation-mode adapter, regardless of library handle, channel
argument and call order: get_temperature returns 25.0, get_pressure returns
1013.25, get_frequency returns status OKAY (that is 0) with frequency
123.456789e12 = 123456789000000.0 Hz for every channel, id returns the fixed
string WLM simulator leaving the state unchanged, and none of these raises. -/
theorem C6_simulation_outputs (wlm : WlmConstants) (s : DriverState)
    (lib : WLMLib) (ch : Int) (hs : s.simulation = true) :
    get_temperature s lib = PyOutcome.ret 25.0 ∧
    get_pressure s lib = PyOutcome.ret 1013.25 ∧
    get_frequency wlm s lib ch =
      (PyOutcome.ret (WLMMeasurementStatus.OKAY.value, 123.456789e12), []) ∧
    (123.456789e12 : PyFloat) = 123456789000000 ∧
    WLMMeasurementStatus.OKAY.value = 0 ∧
    idStep s lib = (s, PyOutcome.ret "WLM simulator") := by
  refine ⟨?_, ?_, ?_, by norm_num, rfl, ?_⟩
  · simp [get_temperature, hs]
  · simp [get_pressure, hs]
  · simp [get_frequency, hs]
  · simp [idStep, hs]

/-- Witness for C6 at a concrete simulation-mode state and channel 3. -/
theorem C6_simulation_outputs_witness :
    get_frequency wlmTest simState lib6 3 =
      (PyOutcome.ret (WLMMeasurementStatus.OKAY.value, 123.456789e12), []) :=
  (C6_simulation_outputs wlmTest simState lib6 3 rfl).2.2.1

/-- C3: evaluation at the failing input.  The model-range check lives in the
body of id, but line 87 calls self.id() without awaiting the coroutine, so
the body never runs during construction: with a library reporting model 11,
construction succeeds and leaves the identity fields untouched, even though
the id body itself raises WLMException on that model. -/
theorem C3_construction_skips_model_check :
    highFinesseInit false (some lib11) = PyOutcome.ret nonSimState ∧
    nonSimState.wlm_model = -1 ∧
    (idStep nonSimState lib11).2 =
      PyOutcome.raiseWLM { args := ["Unrecognised WLM model: 11"] } := by
  decide

/-- C4: evaluation at the failing inputs.  Line 45 of aqctl_highfinesse.py
passes args.device if not args.simulation else None as the first positional
argument of HighFinesse, which is the simulation parameter: invoked with the
simulation toggle, the adapter receives the falsy value None and takes the
non-simulation path (here failing on the unavailable DLL); invoked with a
device path and no toggle, it receives the truthy device string and is
constructed in simulation mode. -/
theorem C4_main_simulation_inverted :
    (mainSimArg true (PyOptStr.str "/dev/ttyUSB4")).truthy = false ∧
    highFinesseInit (mainSimArg true (PyOptStr.str "/dev/ttyUSB4")).truthy
      none = PyOutcome.raiseWLM
        { args := ["Failed to load WLM DLL (is HighFinesse software installed?)"] } ∧
    mainDeviceCheckExits true (PyOptStr.str "/dev/ttyUSB4") = false ∧
    (mainSimArg false (PyOptStr.str "/dev/ttyUSB4")).truthy = true ∧
    highFinesseInit (mainSimArg false (PyOptStr.str "/dev/ttyUSB4")).truthy
      none = PyOutcome.ret { simulation := true } ∧
    mainDeviceCheckExits false (PyOptStr.str "/dev/ttyUSB4") = false := by
  decide

/-- C7 counterexample: construction with a model 6 library leaves the
identity fields at -1 (the unawaited self.id() coroutine never reads them),
and the public id operation performed afterwards changes wlm_model from -1
to 6 — so the fields are neither read at initialization nor immutable
afterward. -/
theorem C7_identity_mutated_by_id :
    highFinesseInit false (some lib6) = PyOutcome.ret nonSimState ∧
    nonSimState.wlm_model = -1 ∧
    (idStep nonSimState lib6).1.wlm_model = 6 ∧
    (idStep nonSimState lib6).1 ≠ nonSimState := by
  decide

/-- C7 amended: in non-simulation mode, construction leaves all four identity
fields at -1 and the channel count unset (the identity read does not happen
at initialization), and each awaited id call reassigns the four fields from
the current library version queries. -/
theorem C7_identity_assignments (lib : WLMLib) (s s0 : DriverState)
    (h0 : highFinesseInit false (some lib) = PyOutcome.ret s0)
    (hs : s.simulation = false) :
    (s0.wlm_model = -1 ∧ s0.wlm_hw_rev = -1 ∧ s0.wlm_fw_rev = -1 ∧
      s0.wlm_fw_build = -1 ∧ s0.num_ccds = none) ∧
    ((idStep s lib).1.wlm_model = lib.GetWLMVersion 0 ∧
      (idStep s lib).1.wlm_hw_rev = lib.GetWLMVersion 1 ∧
      (idStep s lib).1.wlm_fw_rev = lib.GetWLMVersion 2 ∧
      (idStep s lib).1.wlm_fw_build = lib.GetWLMVersion 3) := by
  constructor
  · have hs0 : s0 = { simulation := false } := by
      simp only [highFinesseInit, Bool.false_eq_true, if_false] at h0
      split at h0
      · injection h0 with h
        exact h.symm
      · split at h0
        · injection h0 with h
          exact h.symm
        · simp at h0
    subst hs0
    exact ⟨rfl, rfl, rfl, rfl, rfl⟩
  · simp only [idStep, hs, Bool.false_eq_true, if_false]
    split <;> simp

/-- Witness for C7 amended at the model 6 library. -/
theorem C7_identity_assignments_witness :
    (idStep nonSimState lib6).1.wlm_model = lib6.GetWLMVersion 0 :=
  (C7_identity_assignments lib6 nonSimState nonSimState (by decide) rfl).2.1

/-- C8: every WLMException carries the vendor error context it was
constructed with: BaseException.__new__ stores the constructor value on the
object even though the overridden __init__ skips Exception.__init__, so for
every value the raised object has args = (value,), str of it is the value,
and the value is retrievable by the catcher. -/
theorem C8_exception_context_carried (value : String) :
    (wlmExceptionInit value).1.args = [value] ∧
    pyExcStr (wlmExceptionInit value).1 = value ∧
    retrievable (wlmExceptionInit value).1 value := by
  refine ⟨rfl, rfl, ?_⟩
  simp [retrievable, wlmExceptionInit]

/-- C9: in non-simulation mode, a WLMException raised by the raw frequency
read is the only exception converted into the (ERROR, 0) result; an exception
of any other type raised by the raw read propagates unchanged out of
get_frequency. -/
theorem C9_only_wlm_converted (wlm : WlmConstants) (s : DriverState)
    (lib : WLMLib) (ch : Int) (hs : s.simulation = false) :
    (∀ e, lib.GetFrequencyNum ch = RawFreqRead.raiseWLM e →
      (get_frequency wlm s lib ch).1 =
        PyOutcome.ret (WLMMeasurementStatus.ERROR.value, 0)) ∧
    (∀ e, lib.GetFrequencyNum ch = RawFreqRead.raiseOther e →
      (get_frequency wlm s lib ch).1 = PyOutcome.raiseOther e) := by
  constructor
  · intro e he
    simp [get_frequency, hs, he, WLMMeasurementStatus.value]
  · intro e he
    simp [get_frequency, hs, he]

/-- Witness for C9: a foreign exception from the raw read propagates. -/
theorem C9_only_wlm_converted_witness :
    (get_frequency wlmTest nonSimState libOther 1).1 =
      PyOutcome.raiseOther "ctypes ArgumentError" :=
  (C9_only_wlm_converted wlmTest nonSimState libOther 1 rfl).2
    "ctypes ArgumentError" rfl

/-- C10: get_frequency validates nothing about its channel argument: for
every integer channel, in simulation mode it returns the fixed pair without
touching the library, and in non-simulation mode the channel value is passed
directly (and only) to the raw library read, whose answer alone determines
the outcome — a returned pair in every case except a foreign exception from
the read, which propagates. -/
theorem C10_no_channel_validation (wlm : WlmConstants) (s : DriverState)
    (lib : WLMLib) (ch : Int) :
    (s.simulation = true → get_frequency wlm s lib ch =
      (PyOutcome.ret (WLMMeasurementStatus.OKAY.value, 123.456789e12), [])) ∧
    (s.simulation = false →
      (get_frequency wlm s lib ch).2 = [ch] ∧
      ((get_frequency wlm s lib ch).1.isRet = true ∨
        ∃ e, lib.GetFrequencyNum ch = RawFreqRead.raiseOther e ∧
          (get_frequency wlm s lib ch).1 = PyOutcome.raiseOther e)) := by
  constructor
  · intro hs
    simp [get_frequency, hs]
  · intro hs
    cases h : lib.GetFrequencyNum ch with
    | value v =>
      refine ⟨?_, Or.inl ?_⟩ <;>
      · simp only [get_frequency, hs, Bool.false_eq_true, if_false, h]
        split
        · simp [PyOutcome.isRet]
        · split
          · simp [PyOutcome.isRet]
          · split <;> simp [PyOutcome.isRet]
    | raiseWLM e =>
      exact ⟨by simp [get_frequency, hs, h], Or.inl (by
        simp [get_frequency, hs, h, PyOutcome.isRet])⟩
    | raiseOther e =>
      exact ⟨by simp [get_frequency, hs, h], Or.inr ⟨e, rfl, by
        simp [get_frequency, hs, h]⟩⟩

/-- Witness for C10 at the out-of-range channel -5 in both modes. -/
theorem C10_no_channel_validation_witness :
    get_frequency wlmTest simState lib6 (-5) =
      (PyOutcome.ret (WLMMeasurementStatus.OKAY.value, 123.456789e12), []) ∧
    (get_frequency wlmTest nonSimState lib6 (-5)).2 = [-5] :=
  ⟨(C10_no_channel_validation wlmTest simState lib6 (-5)).1 rfl,
   ((C10_no_channel_validation wlmTest nonSimState lib6 (-5)).2 rfl).1⟩

end HF
